import Mathlib

/-!
Verification of `src/classes/githubproject.py` (class `GithubProject`).

The Python class drives the GitHub REST/GraphQL surface.  We embed it
shallowly: every network interaction is made explicit, either as a field of
an abstract `RepoState` (branches, file contents, pull requests of the
bootstrap repository) or as an oracle/fault parameter (HTTP status codes,
readiness of a freshly created repository).  Python dictionaries become
association lists with first-occurrence lookup and replace-or-append
assignment, matching `dict` semantics for the unique-key dictionaries the
code manipulates.  `sys.exit(1)` becomes an explicit `exited`/`error`
result carrying the state reached so far (no rollback is modelled, as none
is performed).
-/

set_option autoImplicit false

namespace GithubProject

/-- JSON-ish values stored in a request mapping.  The code treats request
values opaquely (it only moves them around), so scalar payloads suffice;
list-valued payloads would flow through the key-filtering logic
identically. -/
inductive JVal where
  | str (s : String)
  | num (n : Int)
  | bool (b : Bool)
  | null
  deriving DecidableEq, Repr

/-- A Python `dict` with string keys, as an association list. -/
def Request := List (String × JVal)

instance : DecidableEq Request := by
  unfold Request; infer_instance

/-- Python `d.get(key)` / `key in d`: first-occurrence lookup. -/
def dictGet : Request → String → Option JVal
  | [], _ => none
  | (k, v) :: rest, key => if k == key then some v else dictGet rest key

/-- Python `d.get(key, default)`. -/
def dictGetD (req : Request) (key : String) (d : JVal) : JVal :=
  (dictGet req key).getD d

/-- Python `key in d`. -/
def dictContains (req : Request) (key : String) : Bool :=
  (dictGet req key).isSome

/-- Python `d[key] = v`: replace the value in place if the key exists, else append. -/
def dictSet : Request → String → JVal → Request
  | [], key, v => [(key, v)]
  | (k, w) :: rest, key, v =>
    if k == key then (k, v) :: rest else (k, w) :: dictSet rest key v

/-- Python `str()` of a request value, as used inside f-strings. -/
def pyShow : JVal → String
  | JVal.str s => s
  | JVal.num n => toString n
  | JVal.bool true => "True"
  | JVal.bool false => "False"
  | JVal.null => "None"

/-- The fixed allow-list `json_fields` of `create_update_pr`
(githubproject.py lines 62-80). -/
def json_fields : List String :=
  [ "github_repo",
    "repo_description",
    "base_template",
    "jira_project_keys",
    "github_project_visibility",
    "product",
    "github_project_teams_write",
    "github_projects_teams_admin",
    "github_project_branch_protection_restricted_teams",
    "prod_alerts_severity_label",
    "nonprod_alerts_severity_label",
    "slack_channel_nonprod_release_notify",
    "slack_channel_prod_release_notify",
    "slack_channel_security_scans_notify",
    "requester_name",
    "requester_email",
    "requester_team" ]

/-- Source: `request_json = {key: request.get(key) for key in json_fields if key in request}`
(githubproject.py line 82).  The comprehension iterates over `json_fields`,
keeping a key only when the request contains it. -/
def descriptorJson (request : Request) : Request :=
  json_fields.filterMap (fun key => (dictGet request key).map (fun v => (key, v)))

/-- Source: `f'REQ_{request["id"]}_{request.get("github_repo")}'`
(githubproject.py line 47).  `request["id"]` presupposes the key is
present (Python would raise `KeyError` otherwise); lookups are rendered
with Python `str()`. -/
def branch_name (request : Request) : String :=
  let i := pyShow (dictGetD request "id" JVal.null)
  let r := pyShow (dictGetD request "github_repo" JVal.null)
  s!"REQ_{i}_{r}"

/-- Path `requests/{branch_name}.json` (githubproject.py lines 59, 87). -/
def reqPath (request : Request) : String :=
  "requests/" ++ branch_name request ++ ".json"

/-- Lookup in a key-filtered comprehension: the output holds exactly the
listed keys that the source dict contains, with the source's values. -/
theorem dictGet_filterMap (req : Request) (ks : List String) (key : String) :
    dictGet (ks.filterMap (fun k => (dictGet req k).map (fun v => (k, v)))) key =
      if ks.contains key then dictGet req key else none := by
  induction ks with
  | nil => simp [dictGet]
  | cons a tl ih =>
    by_cases hk : key = a
    · subst hk
      rcases ha : dictGet req key with _ | v
      · simp only [List.filterMap_cons, ha, Option.map_none']
        rw [ih]
        simp [ha]
      · simp [List.filterMap_cons, ha, dictGet, List.contains_cons]
    · have hba : (a == key) = false := by simp [Ne.symm hk]
      rcases ha : dictGet req a with _ | v
      · simp only [List.filterMap_cons, ha, Option.map_none']
        rw [ih]
        simp [List.contains_cons, hk]
      · simp only [List.filterMap_cons, ha, Option.map_some']
        simp only [dictGet, hba, if_false]
        rw [ih]
        simp [List.contains_cons, hk]

/-- Keys of the comprehension output, in order. -/
theorem keys_filterMap (req : Request) (ks : List String) :
    (ks.filterMap (fun k => (dictGet req k).map (fun v => (k, v)))).map Prod.fst =
      ks.filter (fun k => dictContains req k) := by
  induction ks with
  | nil => rfl
  | cons a tl ih =>
    rcases ha : dictGet req a with _ | v <;>
      simp [List.filterMap_cons, ha, List.filter_cons, dictContains, ih]

/-- C3 — Allow-list filtering: the descriptor dictionary built by
`create_update_pr` holds exactly the allow-listed keys present in the
request (in allow-list order), each with the request's value; a key absent
from the request is absent from the output, and a key outside the
17-element allow-list never appears. -/
theorem C3_allowlist_filtering (req : Request) (key : String) :
    (dictGet (descriptorJson req) key =
      if json_fields.contains key then dictGet req key else none) ∧
    ((descriptorJson req).map Prod.fst =
      json_fields.filter (fun k => dictContains req k)) ∧
    json_fields.length = 17 := by
  refine ⟨?_, ?_, rfl⟩
  · exact dictGet_filterMap req json_fields key
  · exact keys_filterMap req json_fields

/-!
### Repository Provisioner: `create_repo` (githubproject.py lines 174-286)

The readiness poll (lines 268-281):
```
repo_ready = False
check_count = 0
while not repo_ready and check_count < 10:
  sleep(5)
  try:
    self.repo.edit(default_branch='main')
    repo_ready = True
  except Exception:
    check_count += 1
    continue
```
`edit : Nat → Bool` is the backend oracle, indexed by the current value of
`check_count` (which counts failed attempts, so attempt `k` — 1-based — runs
with `check_count = k - 1`); `edit c = false` models `repo.edit` raising any
exception.  Each loop iteration sleeps 5 seconds and then makes one attempt.
The result is `(attempts made, seconds slept, repo_ready)`.  The `fuel`
argument is a structural-termination device: the loop guard
`check_count < 10` is kept literally, and `readiness_poll` supplies
`fuel = 10`, enough for every reachable `check_count`.
-/

/-- One readiness-poll loop, faithful to the `while` loop above. -/
def poll_loop (edit : Nat → Bool) : Nat → Nat → Nat × Nat × Bool
  | 0, _ => (0, 0, false)
  | fuel + 1, check_count =>
    if check_count < 10 then
      if edit check_count then (1, 5, true)
      else
        let r := poll_loop edit fuel (check_count + 1)
        (r.1 + 1, r.2.1 + 5, r.2.2)
    else (0, 0, false)

/-- The readiness poll as run by `create_repo`: starts at `check_count = 0`. -/
def readiness_poll (edit : Nat → Bool) : Nat × Nat × Bool :=
  poll_loop edit 10 0

/-- Source `create_repo` (lines 174-286), with the network made explicit:
`has_template` is the truthiness of `project_params['github_template_repo']`;
`create_status` the HTTP status of the creation POST (template `generate` or
org-repo create); `readme_ok` whether seeding `README.md` succeeds on the
non-template path; `edit` the readiness oracle.  `Except.error 1` is
`sys.exit(1)`; on success the result carries the poll's
`(attempts, seconds slept)`. -/
def create_repo (has_template : Bool) (create_status : Nat) (readme_ok : Bool)
    (edit : Nat → Bool) : Except Nat (Nat × Nat) :=
  if has_template then
    if create_status == 201 then
      let r := readiness_poll edit
      if r.2.2 then Except.ok (r.1, r.2.1) else Except.error 1
    else Except.error 1
  else
    if create_status == 201 then
      if readme_ok then
        let r := readiness_poll edit
        if r.2.2 then Except.ok (r.1, r.2.1) else Except.error 1
      else Except.error 1
    else Except.error 1

theorem poll_loop_attempts_le (edit : Nat → Bool) :
    ∀ fuel check_count, (poll_loop edit fuel check_count).1 ≤ 10 - check_count := by
  intro fuel
  induction fuel with
  | zero => intro c; simp [poll_loop]
  | succ n ih =>
    intro c
    rw [poll_loop]
    by_cases hc : c < 10
    · by_cases he : edit c
      · simp [hc, he]
        omega
      · simp [hc, he]
        have := ih (c + 1)
        omega
    · simp [hc]

theorem poll_loop_sleep (edit : Nat → Bool) :
    ∀ fuel check_count,
      (poll_loop edit fuel check_count).2.1 = 5 * (poll_loop edit fuel check_count).1 := by
  intro fuel
  induction fuel with
  | zero => intro c; simp [poll_loop]
  | succ n ih =>
    intro c
    rw [poll_loop]
    by_cases hc : c < 10
    · by_cases he : edit c
      · simp [hc, he]
      · simp [hc, he]
        have := ih (c + 1)
        omega
    · simp [hc]

/-- C5 — Readiness poll bounds: the poll makes at most 10 attempts, with a
fixed 5-second sleep before each attempt (so 5s between consecutive
attempts); any exception counts as not-ready.  A backend that first
succeeds on attempt 3 makes the poll return success after 3 attempts
(budget not exhausted, 3 < 10) and lets `create_repo` succeed; a backend
that never succeeds makes the poll stop after exactly 10 attempts with 50
seconds (≥ 45) of accumulated delay, and `create_repo` exits fatally
(`sys.exit(1)`). -/
theorem C5_readiness_poll_bounds :
    (∀ edit : Nat → Bool,
      (readiness_poll edit).1 ≤ 10 ∧
      (readiness_poll edit).2.1 = 5 * (readiness_poll edit).1) ∧
    (readiness_poll (fun c => decide (2 ≤ c)) = (3, 15, true) ∧
      create_repo true 201 true (fun c => decide (2 ≤ c)) = Except.ok (3, 15) ∧
      (readiness_poll (fun c => decide (2 ≤ c))).1 < 10) ∧
    (readiness_poll (fun _ => false) = (10, 50, false) ∧
      create_repo true 201 true (fun _ => false) = Except.error 1 ∧
      45 ≤ (readiness_poll (fun _ => false)).2.1) := by
  refine ⟨fun edit => ⟨poll_loop_attempts_le edit 10 0, poll_loop_sleep edit 10 0⟩, ?_, ?_⟩
  · exact ⟨rfl, rfl, by decide⟩
  · exact ⟨rfl, rfl, by decide⟩

/-- C9 — Repository creation fail-fast: on both the template and the plain
creation path, a non-201 HTTP status on the creation request makes
`create_repo` exit immediately with code 1 (no retry is attempted — the
model issues a single creation request by construction), while a 201
status proceeds past the creation step (with the rest succeeding,
`create_repo` returns normally). -/
theorem C9_create_repo_fail_fast (has_template readme_ok : Bool) (create_status : Nat)
    (edit : Nat → Bool) (h : create_status ≠ 201) :
    create_repo has_template create_status readme_ok edit = Except.error 1 ∧
    (∀ t : Bool, create_repo t 201 true (fun _ => true) = Except.ok (1, 5)) := by
  constructor
  · have hs : (create_status == 201) = false := by simp [h]
    cases has_template <;> simp [create_repo, hs]
  · intro t; cases t <;> rfl

/-- Witness for C9 at `create_status = 422`. -/
theorem C9_create_repo_fail_fast_witness :
    (422 ≠ 201) ∧
    (create_repo true 422 true (fun _ => false) = Except.error 1 ∧
      (∀ t : Bool, create_repo t 201 true (fun _ => true) = Except.ok (1, 5))) :=
  ⟨by decide, C9_create_repo_fail_fast true true 422 (fun _ => false) (by decide)⟩

/-!
### Workflow Pruner: `delete_old_workflows` (githubproject.py lines 153-172)

`workflows` is the bootstrap repository's workflow list in API order, each
with its run-id list in API order (`get_runs`).  The function returns the
run ids deleted, in deletion order.  The `GithubException` handler of the
source merely logs a warning and swallows the error; it performs no
deletions, so it does not affect the deletion count modelled here.
-/

structure Workflow where
  name : String
  runs : List Nat
  deriving DecidableEq, Repr

/-- Source `delete_old_workflows`: picks the workflows named exactly
`"Bootstrap - poll for repo requests"`; if the first such workflow has more
than 12 runs, deletes `workflow_runs[12:]` (every run beyond the 12 most
recent in API order). -/
def delete_old_workflows (workflows : List Workflow) : List Nat :=
  match workflows.filter (fun w => w.name == "Bootstrap - poll for repo requests") with
  | [] => []
  | w :: _ =>
    let run_qty := w.runs.length
    if run_qty > 12 then w.runs.drop 12 else []

/-- C8 — Workflow pruning retention: with `w` the first workflow named
exactly `"Bootstrap - poll for repo requests"`, at most 12 runs trigger no
deletion; `n > 12` runs trigger exactly `n - 12` deletions, namely every
run beyond the 12 most recent in API order. -/
theorem C8_workflow_retention (pre post : List Workflow) (w : Workflow)
    (hw : w.name = "Bootstrap - poll for repo requests")
    (hpre : pre.filter (fun v => v.name == "Bootstrap - poll for repo requests") = []) :
    (w.runs.length ≤ 12 → delete_old_workflows (pre ++ w :: post) = []) ∧
    (12 < w.runs.length →
      delete_old_workflows (pre ++ w :: post) = w.runs.drop 12 ∧
      (delete_old_workflows (pre ++ w :: post)).length = w.runs.length - 12) := by
  have hfil : (pre ++ w :: post).filter
      (fun v => v.name == "Bootstrap - poll for repo requests") =
      w :: post.filter (fun v => v.name == "Bootstrap - poll for repo requests") := by
    rw [List.filter_append, hpre, List.nil_append, List.filter_cons]
    simp [hw]
  constructor
  · intro hle
    have : ¬ w.runs.length > 12 := by omega
    simp [delete_old_workflows, hfil, this]
  · intro hgt
    constructor
    · simp [delete_old_workflows, hfil, hgt]
    · simp [delete_old_workflows, hfil, hgt, List.length_drop]

/-- Witness for C8: a 15-run workflow (after one unrelated workflow)
triggers exactly the 3 oldest-run deletions. -/
theorem C8_workflow_retention_witness :
    (Workflow.mk "Bootstrap - poll for repo requests"
        [1, 2, 3, 4, 5, 6, 7, 8, 9, 10, 11, 12, 13, 14, 15]).name =
      "Bootstrap - poll for repo requests" ∧
    ([Workflow.mk "other" [1, 2]].filter
      (fun v => v.name == "Bootstrap - poll for repo requests") = []) ∧
    delete_old_workflows
      ([Workflow.mk "other" [1, 2]] ++
        Workflow.mk "Bootstrap - poll for repo requests"
          [1, 2, 3, 4, 5, 6, 7, 8, 9, 10, 11, 12, 13, 14, 15] :: []) = [13, 14, 15] :=
  ⟨rfl, by decide,
    ((C8_workflow_retention [Workflow.mk "other" [1, 2]] []
      (Workflow.mk "Bootstrap - poll for repo requests"
        [1, 2, 3, 4, 5, 6, 7, 8, 9, 10, 11, 12, 13, 14, 15]) rfl (by decide)).2
      (by decide)).1⟩

/-!
### Runner-Group Attacher: `add_repo_to_runner_group`
(githubproject.py lines 288-334)

Exception semantics of the source, modelled exactly:
- `repo = self.org.get_repo(repo_name)` sits outside every `try` block;
  PyGithub raises a `GithubException` (status 404 for a missing
  repository), which therefore propagates to the caller uncaught.  The
  subsequent `if not repo: ... return False` is unreachable: `get_repo`
  either returns a (truthy) repository object or raises.
- The runner-group listing lives in `try: ... except GithubException`, but
  everything inside raises other exception types: `r.raise_for_status()`
  raises `requests.exceptions.HTTPError`, and
  `next(g for g in groups if g['name'] == runner_group_name)` — called
  with no default — raises `StopIteration` when no group matches.  Neither
  is a `GithubException`, so both propagate uncaught, and the
  `else: ... return False` arm of the walrus `if` is unreachable (`next`
  either raises or returns a non-empty dict, which is truthy).
- The PUT block likewise catches only `GithubException` while
  `raise_for_status()` raises `requests.exceptions.HTTPError`.
-/

structure RunnerGroup where
  name : String
  id : Nat
  deriving DecidableEq, Repr

/-- Python exceptions that escape `add_repo_to_runner_group`. -/
inductive PyErr where
  | githubExn (status : Nat)
  | httpError (status : Nat)
  | stopIteration
  deriving DecidableEq, Repr

/-- Outcome of a call: a normal `return` or an uncaught exception. -/
inductive RGResult where
  | ret (b : Bool)
  | exn (e : PyErr)
  deriving DecidableEq, Repr

/-- Source `add_repo_to_runner_group(repo_name, runner_group_name)` with the
network explicit: `get_repo_res` is `org.get_repo` (repository id, or the
`GithubException` status it raises); `list_res` the runner-group GET
(groups, or the HTTP error status `raise_for_status` turns into an
`HTTPError`); `put_res` the bind PUT likewise. -/
def add_repo_to_runner_group (get_repo_res : Except Nat Nat)
    (list_res : Except Nat (List RunnerGroup)) (put_res : Except Nat Unit)
    (runner_group_name : String) : RGResult :=
  match get_repo_res with
  | Except.error s => RGResult.exn (PyErr.githubExn s)
  | Except.ok _repo_id =>
    match list_res with
    | Except.error s => RGResult.exn (PyErr.httpError s)
    | Except.ok groups =>
      match groups.find? (fun g => g.name == runner_group_name) with
      | none => RGResult.exn PyErr.stopIteration
      | some _g =>
        match put_res with
        | Except.error s => RGResult.exn (PyErr.httpError s)
        | Except.ok _ => RGResult.ret true

/-- C6 — Runner-group lookup failure is **not** soft: when no group in the
org's runner-group list has exactly the requested name, the code raises an
uncaught `StopIteration` (from `next` with no default, which the
`except GithubException` clause does not catch) instead of logging and
returning `False`.  No bind PUT is performed (the result is the same for
every `put_res`), but the claimed `return False` never happens — the
`else: log.error(...); return False` arm is dead code. -/
theorem C6_group_not_found_raises :
    (∀ put_res : Except Nat Unit,
      add_repo_to_runner_group (Except.ok 7)
        (Except.ok [RunnerGroup.mk "default" 1]) put_res "gpu-group" =
        RGResult.exn PyErr.stopIteration) ∧
    (∀ put_res : Except Nat Unit,
      add_repo_to_runner_group (Except.ok 7)
        (Except.ok [RunnerGroup.mk "default" 1]) put_res "gpu-group" ≠
        RGResult.ret false) := by
  have h1 : ∀ put_res : Except Nat Unit,
      add_repo_to_runner_group (Except.ok 7)
        (Except.ok [RunnerGroup.mk "default" 1]) put_res "gpu-group" =
        RGResult.exn PyErr.stopIteration := by
    intro put_res
    rcases put_res with _ | _ <;> rfl
  refine ⟨h1, fun put_res => ?_⟩
  rw [h1 put_res]
  decide

/-- C7 — `add_repo_to_runner_group` is **not** total over failures: a
missing repository propagates the `GithubException` raised by
`org.get_repo` (no surrounding `try`); a failing runner-group GET and a
failing bind PUT both propagate `requests.exceptions.HTTPError` (only
`GithubException` is caught).  None of the three failure modes returns
`False`; only full success returns `True` normally. -/
theorem C7_failures_propagate :
    add_repo_to_runner_group (Except.error 404) (Except.ok []) (Except.ok ()) "g" =
      RGResult.exn (PyErr.githubExn 404) ∧
    add_repo_to_runner_group (Except.ok 7) (Except.error 500) (Except.ok ()) "g" =
      RGResult.exn (PyErr.httpError 500) ∧
    add_repo_to_runner_group (Except.ok 7) (Except.ok [RunnerGroup.mk "g" 1])
      (Except.error 500) "g" = RGResult.exn (PyErr.httpError 500) ∧
    add_repo_to_runner_group (Except.ok 7) (Except.ok [RunnerGroup.mk "g" 1])
      (Except.ok ()) "g" = RGResult.ret true := by
  exact ⟨rfl, rfl, rfl, rfl⟩

/-!
### Request Reconciler: `create_update_pr` (githubproject.py lines 46-151)

The bootstrap repository is abstracted as a `RepoState`:
- `branches` — branch names (`get_branches` / `create_git_ref`).  Creating
  a branch records its name; per-branch commit history is not tracked
  beyond the file contents below.
- `contents` — what `get_contents(path, ref=branch)` returns per
  `(branch, path)`: a single file with a revision marker (`sha`) and a
  string body, or a directory (PyGithub then returns a *list*, possibly
  empty; a non-list falsy return cannot arise from the API).  A missing
  entry raises a 404 `GithubException`.
- `pulls` — the pull requests in API (`sort='created'`) order.
- `nextPr` / `nextSha` — counters issuing fresh PR numbers and revision
  markers deterministically.

`Faults` injects the failures the source distinguishes: a
`GithubException` status raised by the `get_contents` read and one raised
by `create_file`.  `noFaults` is the fault-free backend.
-/

/-- A `get_contents` result for one `(branch, path)`. -/
inductive Entry where
  | file (sha : Nat) (content : String)
  | dir
  deriving DecidableEq, Repr

structure PullReq where
  number : Nat
  head : String
  base : String
  state : String
  title : String
  body : String
  automerge : Option String
  deriving DecidableEq, Repr

structure RepoState where
  branches : List String
  contents : List ((String × String) × Entry)
  pulls : List PullReq
  nextPr : Nat
  nextSha : Nat
  deriving DecidableEq, Repr

structure Faults where
  readFault : Option Nat
  createFault : Option Nat
  deriving DecidableEq, Repr

def noFaults : Faults := { readFault := none, createFault := none }

def contentsGet : List ((String × String) × Entry) → String → String → Option Entry
  | [], _, _ => none
  | kv :: rest, b, p =>
    if kv.1.1 == b && kv.1.2 == p then some kv.2 else contentsGet rest b p

def lookupEntry (st : RepoState) (b p : String) : Option Entry :=
  contentsGet st.contents b p

def setContents : List ((String × String) × Entry) → String → String → Entry →
    List ((String × String) × Entry)
  | [], b, p, e => [((b, p), e)]
  | kv :: rest, b, p, e =>
    if kv.1.1 == b && kv.1.2 == p then ((b, p), e) :: rest
    else kv :: setContents rest b p e

def setEntry (st : RepoState) (b p : String) (e : Entry) : RepoState :=
  { st with contents := setContents st.contents b p e }

/-- Committing a file body to `(b, p)`: the stored revision marker is
refreshed from the `nextSha` counter. -/
def writeEntry (st : RepoState) (b p content : String) : RepoState :=
  let st' := setEntry st b p (Entry.file st.nextSha content)
  { st' with nextSha := st.nextSha + 1 }

/-- Source `bootstrap_repo.get_contents(path, ref=branch)` (line 86): either the
entry, or the status of the `GithubException` it raises (404 when the path
is absent; `readFault` injects any other backend failure). -/
def get_contents (st : RepoState) (faults : Faults) (b p : String) : Except Nat Entry :=
  match faults.readFault with
  | some s => Except.error s
  | none =>
    match lookupEntry st b p with
    | some e => Except.ok e
    | none => Except.error 404

/-- Source `bootstrap_repo.update_file(path, msg, content, sha, branch)`
(lines 90-96): full replace, guarded by the revision marker read just
before (a stale marker would make GitHub reject the update). -/
def update_file (st : RepoState) (b p content : String) (sha : Nat) :
    Except Nat RepoState :=
  match lookupEntry st b p with
  | some (Entry.file sha0 _) =>
    if sha0 == sha then Except.ok (writeEntry st b p content) else Except.error 409
  | _ => Except.error 404

/-- Source `bootstrap_repo.create_file(path, msg, content, branch)`
(lines 110-116); `createFault` injects the `GithubException` it may
raise. -/
def create_file (st : RepoState) (faults : Faults) (b p content : String) :
    Except Nat RepoState :=
  match faults.createFault with
  | some s => Except.error s
  | none => Except.ok (writeEntry st b p content)

/-- Outcome of the descriptor-file section: the state after it, or the
state at which `sys.exit(1)` fired. -/
inductive StepRes where
  | ok (st : RepoState)
  | fatal (st : RepoState)
  deriving DecidableEq, Repr

/-- The `if create_file:` block (lines 108-122): create the descriptor,
any `GithubException` is fatal. -/
def file_create_part (st : RepoState) (faults : Faults) (b p content : String) :
    StepRes :=
  match create_file st faults b p content with
  | Except.ok st' => StepRes.ok st'
  | Except.error _ => StepRes.fatal st

/-- Lines 84-122: `try` read the descriptor; on a (non-list, truthy) file
update it in place with the sha just read; a 404 from the `try` block sets
`create_file = True`; any other `GithubException` exits; then the create
block runs if flagged.  A *list* result (`isinstance(json_file, list)`,
i.e. the path is a directory) silently skips both update and create. -/
def file_step (st : RepoState) (faults : Faults) (b p content : String) : StepRes :=
  match get_contents st faults b p with
  | Except.ok (Entry.file sha _) =>
    match update_file st b p content sha with
    | Except.ok st' => StepRes.ok st'
    | Except.error 404 => file_create_part st faults b p content
    | Except.error _ => StepRes.fatal st
  | Except.ok Entry.dir => StepRes.ok st
  | Except.error s =>
    if s == 404 then file_create_part st faults b p content else StepRes.fatal st

/-- Lines 50-57: `get_branches`; create `refs/heads/{branch_name}` from the
tip of `main` only when the name is not already listed. -/
def branch_step (st : RepoState) (bname : String) : RepoState :=
  if st.branches.contains bname then st
  else { st with branches := bname :: st.branches }

/-- Lines 124-130: `get_pulls(state='open', sort='created', base='main',
head=f'{org}:{branch_name}')` — the open PRs whose base is `main` and whose
head is the request branch (the `{org}:` qualifier names the same org the
branch lives in), in API order. -/
def openPulls (st : RepoState) (bname : String) : List PullReq :=
  st.pulls.filter (fun pr => pr.state == "open" && pr.base == "main" && pr.head == bname)

/-- The PR built by `create_pull` (lines 136-141): freshly numbered, titled
and bodied with the target repository name, open, base `main`, head the
request branch, no auto-merge yet. -/
def new_pull (st : RepoState) (bname : String) (request : Request) : PullReq :=
  let repoStr := pyShow (dictGetD request "github_repo" JVal.null)
  { number := st.nextPr
    head := bname
    base := "main"
    state := "open"
    title := "Project request for " ++ repoStr
    body := "Project request raised for " ++ repoStr
    automerge := none }

/-- Lines 124-149: if no open PR matches, create one, enable auto-merge in
`'MERGE'` mode, and record `New`/`Raised`/the fresh number in the request;
otherwise record `Updated`/`Updated`/the first matching PR's number and
leave the repository state untouched. -/
def pr_step (st : RepoState) (bname : String) (request : Request) :
    Request × RepoState :=
  match openPulls st bname with
  | [] =>
    let pr0 := new_pull st bname request
    let pr := { pr0 with automerge := some "MERGE" }
    let r1 := dictSet request "request_github_pr_number" (JVal.num pr.number)
    let r2 := dictSet r1 "output_status" (JVal.str "New")
    let r3 := dictSet r2 "request_github_pr_status" (JVal.str "Raised")
    (r3, { st with pulls := st.pulls ++ [pr], nextPr := st.nextPr + 1 })
  | q :: _ =>
    let r1 := dictSet request "request_github_pr_number" (JVal.num q.number)
    let r2 := dictSet r1 "output_status" (JVal.str "Updated")
    let r3 := dictSet r2 "request_github_pr_status" (JVal.str "Updated")
    (r3, st)

/-- Serialization `json.dumps(request_json, indent=2)` — a fixed, deterministic
pretty-printing of the descriptor dictionary (2-space indentation, keys in
dictionary order). -/
def jvalDump : JVal → String
  | JVal.str s => "\"" ++ s ++ "\""
  | JVal.num n => toString n
  | JVal.bool true => "true"
  | JVal.bool false => "false"
  | JVal.null => "null"

def dumpFields : List (String × JVal) → String
  | [] => ""
  | [(k, v)] => "  \"" ++ k ++ "\": " ++ jvalDump v
  | (k, v) :: rest => "  \"" ++ k ++ "\": " ++ jvalDump v ++ ",\n" ++ dumpFields rest

def jsonDumps (obj : List (String × JVal)) : String :=
  if obj.isEmpty then "\x7b\x7d" else "\x7b\n" ++ dumpFields obj ++ "\n\x7d"

/-- Result of `create_update_pr`: the returned (mutated) request and the
repository state, or `sys.exit(1)` with the state reached (nothing is
rolled back). -/
inductive CUPResult where
  | ok (request : Request) (st : RepoState)
  | exited (code : Nat) (st : RepoState)
  deriving DecidableEq

/-- Source `create_update_pr(request)` (lines 46-151), chaining the three
sections above in source order. -/
def create_update_pr (st : RepoState) (faults : Faults) (request : Request) :
    CUPResult :=
  let bname := branch_name request
  let stA := branch_step st bname
  let body := jsonDumps (descriptorJson request)
  match file_step stA faults bname (reqPath request) body with
  | StepRes.fatal stF => CUPResult.exited 1 stF
  | StepRes.ok stB =>
    let out := pr_step stB bname request
    CUPResult.ok out.1 out.2

/-- The descriptor body visible at `(b, p)`, if a file is there. -/
def fileContent (st : RepoState) (b p : String) : Option String :=
  match lookupEntry st b p with
  | some (Entry.file _ c) => some c
  | _ => none

theorem dictGet_dictSet_self (r : Request) (k : String) (v : JVal) :
    dictGet (dictSet r k v) k = some v := by
  induction r with
  | nil => simp [dictSet, dictGet]
  | cons hd tl ih =>
    obtain ⟨k0, w⟩ := hd
    by_cases h : k0 = k
    · subst h; simp [dictSet, dictGet]
    · have hb : (k0 == k) = false := by simp [h]
      simp [dictSet, hb, dictGet, ih]

theorem dictGet_dictSet_other (r : Request) (k k' : String) (v : JVal)
    (h : k ≠ k') : dictGet (dictSet r k' v) k = dictGet r k := by
  have hk : (k' == k) = false := by simp [Ne.symm h]
  induction r with
  | nil => simp [dictSet, dictGet, hk]
  | cons hd tl ih =>
    obtain ⟨k0, w⟩ := hd
    by_cases h0 : k0 = k'
    · subst h0; simp [dictSet, dictGet, hk]
    · have hb : (k0 == k') = false := by simp [h0]
      by_cases h1 : k0 = k
      · subst h1; simp [dictSet, hb, dictGet]
      · have hb1 : (k0 == k) = false := by simp [h1]
        simp [dictSet, hb, dictGet, hb1, ih]

/-- C2 — PR create/update branching: when no open pull request has base
`main` and head the request branch, `pr_step` (the PR section of
`create_update_pr`, lines 124-149) appends exactly one new PR — numbered
with the next fresh number, open, base `main`, head the branch, titled
`Project request for {repo}`, bodied `Project request raised for {repo}`,
with auto-merge enabled in `MERGE` (merge-commit) mode — and records
`output_status = "New"`, `request_github_pr_status = "Raised"` and the new
number in the request.  When such a PR already exists, the repository
state is returned unchanged (no second PR, no edit of the existing one)
and the request records `output_status = "Updated"`,
`request_github_pr_status = "Updated"` and the first matching PR's
number. -/
theorem C2_pr_create_update_branching (st : RepoState) (bname : String) (req : Request) :
    match openPulls st bname with
    | [] =>
      ∃ pr : PullReq,
        (pr_step st bname req).2.pulls = st.pulls ++ [pr] ∧
        (pr_step st bname req).2.branches = st.branches ∧
        (pr_step st bname req).2.contents = st.contents ∧
        pr.number = st.nextPr ∧
        pr.head = bname ∧
        pr.base = "main" ∧
        pr.state = "open" ∧
        pr.title = "Project request for " ++ pyShow (dictGetD req "github_repo" JVal.null) ∧
        pr.body = "Project request raised for " ++ pyShow (dictGetD req "github_repo" JVal.null) ∧
        pr.automerge = some "MERGE" ∧
        dictGet (pr_step st bname req).1 "output_status" = some (JVal.str "New") ∧
        dictGet (pr_step st bname req).1 "request_github_pr_status" = some (JVal.str "Raised") ∧
        dictGet (pr_step st bname req).1 "request_github_pr_number" = some (JVal.num st.nextPr)
    | q :: _ =>
      (pr_step st bname req).2 = st ∧
      dictGet (pr_step st bname req).1 "output_status" = some (JVal.str "Updated") ∧
      dictGet (pr_step st bname req).1 "request_github_pr_status" = some (JVal.str "Updated") ∧
      dictGet (pr_step st bname req).1 "request_github_pr_number" = some (JVal.num q.number) := by
  rcases hp : openPulls st bname with _ | ⟨q, rest⟩
  · refine ⟨{ new_pull st bname req with automerge := some "MERGE" },
      ?_, ?_, ?_, rfl, rfl, rfl, rfl, rfl, rfl, rfl, ?_, ?_, ?_⟩
    · simp [pr_step, hp]
    · simp [pr_step, hp]
    · simp [pr_step, hp]
    · simp only [pr_step, hp]
      rw [dictGet_dictSet_other _ _ _ _ (by decide), dictGet_dictSet_self]
    · simp only [pr_step, hp]
      rw [dictGet_dictSet_self]
    · simp only [pr_step, hp]
      rw [dictGet_dictSet_other _ _ _ _ (by decide),
        dictGet_dictSet_other _ _ _ _ (by decide), dictGet_dictSet_self]
      rfl
  · refine ⟨?_, ?_, ?_, ?_⟩
    · simp [pr_step, hp]
    · simp only [pr_step, hp]
      rw [dictGet_dictSet_other _ _ _ _ (by decide), dictGet_dictSet_self]
    · simp only [pr_step, hp]
      rw [dictGet_dictSet_self]
    · simp only [pr_step, hp]
      rw [dictGet_dictSet_other _ _ _ _ (by decide),
        dictGet_dictSet_other _ _ _ _ (by decide), dictGet_dictSet_self]

/-! Preservation and characterization lemmas for the reconciler. -/

theorem branch_step_contents (st : RepoState) (b : String) :
    (branch_step st b).contents = st.contents := by
  unfold branch_step; split <;> rfl

theorem branch_step_pulls (st : RepoState) (b : String) :
    (branch_step st b).pulls = st.pulls := by
  unfold branch_step; split <;> rfl

theorem branch_step_nextPr (st : RepoState) (b : String) :
    (branch_step st b).nextPr = st.nextPr := by
  unfold branch_step; split <;> rfl

theorem pr_step_contents (st : RepoState) (b : String) (r : Request) :
    ((pr_step st b r).2).contents = st.contents := by
  unfold pr_step; split <;> rfl

theorem pr_step_branches (st : RepoState) (b : String) (r : Request) :
    ((pr_step st b r).2).branches = st.branches := by
  unfold pr_step; split <;> rfl

theorem writeEntry_pulls (st : RepoState) (b p c : String) :
    (writeEntry st b p c).pulls = st.pulls := rfl

theorem writeEntry_branches (st : RepoState) (b p c : String) :
    (writeEntry st b p c).branches = st.branches := rfl

theorem writeEntry_nextPr (st : RepoState) (b p c : String) :
    (writeEntry st b p c).nextPr = st.nextPr := rfl

theorem contentsGet_setContents_same
    (l : List ((String × String) × Entry)) (b p : String) (e : Entry) :
    contentsGet (setContents l b p e) b p = some e := by
  induction l with
  | nil => simp [setContents, contentsGet]
  | cons kv rest ih =>
    cases hb : (kv.1.1 == b && kv.1.2 == p)
    · simp [setContents, contentsGet, hb, ih]
    · simp [setContents, contentsGet, hb]

theorem lookupEntry_writeEntry_same (st : RepoState) (b p c : String) :
    lookupEntry (writeEntry st b p c) b p = some (Entry.file st.nextSha c) := by
  unfold lookupEntry writeEntry setEntry
  exact contentsGet_setContents_same st.contents b p _

theorem lookupEntry_congr {st st' : RepoState} (h : st.contents = st'.contents)
    (b p : String) : lookupEntry st b p = lookupEntry st' b p := by
  unfold lookupEntry; rw [h]

theorem fileContent_congr {st st' : RepoState} (h : st.contents = st'.contents)
    (b p : String) : fileContent st b p = fileContent st' b p := by
  unfold fileContent; rw [lookupEntry_congr h]

theorem openPulls_congr {st st' : RepoState} (h : st.pulls = st'.pulls)
    (b : String) : openPulls st b = openPulls st' b := by
  unfold openPulls; rw [h]

/-- The net effect of the descriptor-file section (lines 84-122) on the
fault-free backend: a directory path is left alone; a file path or a
missing path gets the freshly serialized descriptor body committed. -/
def file_phase (st : RepoState) (b p body : String) : RepoState :=
  match lookupEntry st b p with
  | some Entry.dir => st
  | _ => writeEntry st b p body

theorem file_step_noFaults (st : RepoState) (b p body : String) :
    file_step st noFaults b p body = StepRes.ok (file_phase st b p body) := by
  unfold file_step file_phase get_contents noFaults
  rcases hE : lookupEntry st b p with _ | e
  · simp [hE, file_create_part, create_file]
  · cases e with
    | file sha c => simp [hE, update_file]
    | dir => simp [hE]

theorem file_phase_pulls (st : RepoState) (b p body : String) :
    (file_phase st b p body).pulls = st.pulls := by
  unfold file_phase; split <;> rfl

theorem file_phase_branches (st : RepoState) (b p body : String) :
    (file_phase st b p body).branches = st.branches := by
  unfold file_phase; split <;> rfl

theorem file_phase_nextPr (st : RepoState) (b p body : String) :
    (file_phase st b p body).nextPr = st.nextPr := by
  unfold file_phase; split <;> rfl

theorem file_phase_of_dir (st : RepoState) (b p body : String)
    (h : lookupEntry st b p = some Entry.dir) : file_phase st b p body = st := by
  unfold file_phase; rw [h]

theorem file_phase_of_not_dir (st : RepoState) (b p body : String)
    (h : lookupEntry st b p ≠ some Entry.dir) :
    file_phase st b p body = writeEntry st b p body := by
  unfold file_phase
  rcases hE : lookupEntry st b p with _ | e
  · rfl
  · cases e with
    | file sha c => rfl
    | dir => exact absurd hE h

/-- A fault-free `create_update_pr` run never exits: it is the branch step,
then the file phase, then the PR step. -/
theorem cup_noFaults_out (st : RepoState) (req : Request) :
    create_update_pr st noFaults req =
      CUPResult.ok
        (pr_step (file_phase (branch_step st (branch_name req)) (branch_name req)
          (reqPath req) (jsonDumps (descriptorJson req))) (branch_name req) req).1
        (pr_step (file_phase (branch_step st (branch_name req)) (branch_name req)
          (reqPath req) (jsonDumps (descriptorJson req))) (branch_name req) req).2 := by
  simp only [create_update_pr, file_step_noFaults]

theorem fileContent_writeEntry (st : RepoState) (b p c : String) :
    fileContent (writeEntry st b p c) b p = some c := by
  unfold fileContent
  rw [lookupEntry_writeEntry_same]

theorem openPulls_pr_step_of_nil (st : RepoState) (b : String) (req : Request)
    (h : openPulls st b = []) :
    openPulls (pr_step st b req).2 b =
      [{ new_pull st b req with automerge := some "MERGE" }] := by
  simp only [pr_step, h]
  unfold openPulls at h ⊢
  simp only [List.filter_append, h, List.nil_append]
  simp [new_pull]

theorem pr_step_of_cons (st : RepoState) (b : String) (req : Request)
    (q : PullReq) (rest : List PullReq) (h : openPulls st b = q :: rest) :
    (pr_step st b req).2 = st := by
  simp [pr_step, h]

/-- All facts about one fault-free `create_update_pr` run needed for the
idempotence argument: the run returns normally; the PR section appends one
matching PR when none was open and leaves the pulls untouched otherwise; a
directory at the descriptor path leaves the contents untouched, any other
path state ends with the serialized descriptor committed. -/
theorem run_facts (st : RepoState) (req : Request) :
    ∃ r1 st1, create_update_pr st noFaults req = CUPResult.ok r1 st1 ∧
      ((openPulls st (branch_name req) = [] →
          ∃ pr, openPulls st1 (branch_name req) = [pr]) ∧
        (∀ q rest, openPulls st (branch_name req) = q :: rest →
          openPulls st1 (branch_name req) = q :: rest ∧ st1.pulls = st.pulls)) ∧
      (lookupEntry st (branch_name req) (reqPath req) = some Entry.dir →
        st1.contents = st.contents) ∧
      (lookupEntry st (branch_name req) (reqPath req) ≠ some Entry.dir →
        fileContent st1 (branch_name req) (reqPath req) =
          some (jsonDumps (descriptorJson req)) ∧
        lookupEntry st1 (branch_name req) (reqPath req) ≠ some Entry.dir) := by
  refine ⟨_, _, cup_noFaults_out st req, ?_, ?_, ?_⟩
  · have hpl : (file_phase (branch_step st (branch_name req)) (branch_name req)
        (reqPath req) (jsonDumps (descriptorJson req))).pulls = st.pulls := by
      rw [file_phase_pulls, branch_step_pulls]
    have hOB : openPulls (file_phase (branch_step st (branch_name req)) (branch_name req)
        (reqPath req) (jsonDumps (descriptorJson req))) (branch_name req) =
        openPulls st (branch_name req) := openPulls_congr hpl _
    constructor
    · intro h0
      exact ⟨_, openPulls_pr_step_of_nil _ _ req (hOB.trans h0)⟩
    · intro q rest hq
      rw [pr_step_of_cons _ _ req q rest (hOB.trans hq)]
      exact ⟨hOB.trans hq, hpl⟩
  · intro hdir
    have hA : lookupEntry (branch_step st (branch_name req)) (branch_name req)
        (reqPath req) = some Entry.dir :=
      (lookupEntry_congr (branch_step_contents st _) _ _).trans hdir
    rw [pr_step_contents, file_phase_of_dir _ _ _ _ hA, branch_step_contents]
  · intro hnd
    have hA : lookupEntry (branch_step st (branch_name req)) (branch_name req)
        (reqPath req) ≠ some Entry.dir := by
      rw [lookupEntry_congr (branch_step_contents st _) _ _]
      exact hnd
    have hW := file_phase_of_not_dir (branch_step st (branch_name req)) (branch_name req)
      (reqPath req) (jsonDumps (descriptorJson req)) hA
    constructor
    · rw [fileContent_congr (pr_step_contents _ _ req) _ _, hW, fileContent_writeEntry]
    · rw [lookupEntry_congr (pr_step_contents _ _ req) _ _, hW,
        lookupEntry_writeEntry_same]
      simp

/-- C10 — Implicit: when the descriptor path resolves to a directory
(`get_contents` returns a list), `create_update_pr` performs neither an
update nor a create — the repository contents are untouched — raises no
error, proceeds straight to the pull-request step and returns normally, so
the descriptor content is not brought up to date. -/
theorem C10_dir_read_skips_write (st : RepoState) (req : Request)
    (hdir : lookupEntry st (branch_name req) (reqPath req) = some Entry.dir) :
    create_update_pr st noFaults req =
      CUPResult.ok
        (pr_step (branch_step st (branch_name req)) (branch_name req) req).1
        (pr_step (branch_step st (branch_name req)) (branch_name req) req).2 ∧
    ((pr_step (branch_step st (branch_name req)) (branch_name req) req).2).contents =
      st.contents := by
  have hA : lookupEntry (branch_step st (branch_name req)) (branch_name req)
      (reqPath req) = some Entry.dir :=
    (lookupEntry_congr (branch_step_contents st _) _ _).trans hdir
  constructor
  · rw [cup_noFaults_out, file_phase_of_dir _ _ _ _ hA]
  · rw [pr_step_contents, branch_step_contents]

/-- C4 — Descriptor file update-or-create with fail-fast: when the read of
`requests/{branch}.json` returns a file, the run completes normally with
the file fully replaced by the freshly serialized descriptor (committed
against the revision marker just read); when the read yields a 404
(missing path), the file is created instead and the run completes
normally; a read failure with any status other than 404 exits the process
with code 1; a create failure with any status exits with code 1.  In both
fatal cases the state at exit is `branch_step st _` — the branch created
at the start of the run persists (no rollback). -/
theorem C4_descriptor_update_or_create (st : RepoState) (req : Request)
    (sha : Nat) (c : String) :
    (lookupEntry st (branch_name req) (reqPath req) = some (Entry.file sha c) →
      ∃ r1 st1, create_update_pr st noFaults req = CUPResult.ok r1 st1 ∧
        fileContent st1 (branch_name req) (reqPath req) =
          some (jsonDumps (descriptorJson req))) ∧
    (lookupEntry st (branch_name req) (reqPath req) = none →
      ∃ r1 st1, create_update_pr st noFaults req = CUPResult.ok r1 st1 ∧
        fileContent st1 (branch_name req) (reqPath req) =
          some (jsonDumps (descriptorJson req))) ∧
    (∀ s, s ≠ 404 →
      create_update_pr st { readFault := some s, createFault := none } req =
        CUPResult.exited 1 (branch_step st (branch_name req))) ∧
    (∀ s, lookupEntry st (branch_name req) (reqPath req) = none →
      create_update_pr st { readFault := none, createFault := some s } req =
        CUPResult.exited 1 (branch_step st (branch_name req))) := by
  obtain ⟨r1, st1, hrun, _hopen, _hdir, hnd⟩ := run_facts st req
  refine ⟨?_, ?_, ?_, ?_⟩
  · intro hfile
    exact ⟨r1, st1, hrun, (hnd (by rw [hfile]; simp)).1⟩
  · intro hnone
    exact ⟨r1, st1, hrun, (hnd (by rw [hnone]; simp)).1⟩
  · intro s hs
    have hs' : (s == 404) = false := by simp [hs]
    simp [create_update_pr, file_step, get_contents, hs']
  · intro s hnone
    have hA : lookupEntry (branch_step st (branch_name req)) (branch_name req)
        (reqPath req) = none :=
      (lookupEntry_congr (branch_step_contents st _) _ _).trans hnone
    simp [create_update_pr, file_step, get_contents, hA, file_create_part, create_file]

/-- C1 — Idempotence of reconciliation: `branch_name` is a pure function of
the request's `id` and `github_repo` fields; and on a fault-free backend
holding at most one open PR for the request branch, two successive
`create_update_pr` invocations with the identical request both return
normally, leave exactly one open pull request with base `main` and head
the request branch after each run, create no second PR on the second run
(`st2.pulls = st1.pulls`), and converge to the same descriptor file
content. -/
theorem C1_reconciliation_idempotent (st : RepoState) (req : Request)
    (hPR : (openPulls st (branch_name req)).length ≤ 1) :
    (∀ r r' : Request, dictGet r "id" = dictGet r' "id" →
      dictGet r "github_repo" = dictGet r' "github_repo" →
      branch_name r = branch_name r') ∧
    ∃ r1 st1 r2 st2,
      create_update_pr st noFaults req = CUPResult.ok r1 st1 ∧
      create_update_pr st1 noFaults req = CUPResult.ok r2 st2 ∧
      (openPulls st1 (branch_name req)).length = 1 ∧
      (openPulls st2 (branch_name req)).length = 1 ∧
      st2.pulls = st1.pulls ∧
      fileContent st2 (branch_name req) (reqPath req) =
        fileContent st1 (branch_name req) (reqPath req) := by
  constructor
  · intro r r' h1 h2
    simp only [branch_name, dictGetD]
    rw [h1, h2]
  obtain ⟨r1, st1, hrun1, ⟨hnil1, hcons1⟩, hdir1, hnd1⟩ := run_facts st req
  obtain ⟨r2, st2, hrun2, ⟨hnil2, hcons2⟩, hdir2, hnd2⟩ := run_facts st1 req
  have hone : ∃ x, openPulls st1 (branch_name req) = [x] := by
    rcases hO : openPulls st (branch_name req) with _ | ⟨q, rest⟩
    · exact hnil1 hO
    · have hlen := hPR
      rw [hO] at hlen
      cases rest with
      | nil => exact ⟨q, (hcons1 q [] hO).1⟩
      | cons y ys => simp at hlen
  obtain ⟨x, hx⟩ := hone
  have hsec := hcons2 x [] hx
  refine ⟨r1, st1, r2, st2, hrun1, hrun2, ?_, ?_, hsec.2, ?_⟩
  · rw [hx]
    rfl
  · rw [hsec.1]
    rfl
  · by_cases hdir : lookupEntry st (branch_name req) (reqPath req) = some Entry.dir
    · have hc1 := hdir1 hdir
      have hl1 : lookupEntry st1 (branch_name req) (reqPath req) = some Entry.dir := by
        rw [lookupEntry_congr hc1]
        exact hdir
      exact fileContent_congr (hdir2 hl1) _ _
    · have hfst := hnd1 hdir
      have hsnd := hnd2 hfst.2
      rw [hsnd.1, hfst.1]

/-! Concrete fixtures for the closed witnesses below.  The request's branch
is `REQ_1_webapp`, its descriptor path `requests/REQ_1_webapp.json`. -/

def wreq : Request := [("id", JVal.num 1), ("github_repo", JVal.str "webapp")]

def wstEmpty : RepoState :=
  { branches := ["main"], contents := [], pulls := [], nextPr := 1, nextSha := 0 }

def wstFile : RepoState :=
  { branches := ["main", "REQ_1_webapp"]
    contents := [(("REQ_1_webapp", "requests/REQ_1_webapp.json"), Entry.file 5 "old")]
    pulls := []
    nextPr := 1
    nextSha := 6 }

def wstDir : RepoState :=
  { branches := ["main"]
    contents := [(("REQ_1_webapp", "requests/REQ_1_webapp.json"), Entry.dir)]
    pulls := []
    nextPr := 1
    nextSha := 0 }

/-- Witness for C1 on an empty bootstrap repository. -/
theorem C1_reconciliation_idempotent_witness :
    (openPulls wstEmpty (branch_name wreq)).length ≤ 1 ∧
    (∃ r1 st1 r2 st2,
      create_update_pr wstEmpty noFaults wreq = CUPResult.ok r1 st1 ∧
      create_update_pr st1 noFaults wreq = CUPResult.ok r2 st2 ∧
      (openPulls st1 (branch_name wreq)).length = 1 ∧
      (openPulls st2 (branch_name wreq)).length = 1 ∧
      st2.pulls = st1.pulls ∧
      fileContent st2 (branch_name wreq) (reqPath wreq) =
        fileContent st1 (branch_name wreq) (reqPath wreq)) :=
  ⟨by decide, (C1_reconciliation_idempotent wstEmpty wreq (by decide)).2⟩

/-- Witness for C4, covering all four branches: existing file replaced,
missing file created, non-404 read failure fatal, create failure fatal. -/
theorem C4_descriptor_update_or_create_witness :
    (lookupEntry wstFile (branch_name wreq) (reqPath wreq) =
        some (Entry.file 5 "old") ∧
      (∃ r1 st1, create_update_pr wstFile noFaults wreq = CUPResult.ok r1 st1 ∧
        fileContent st1 (branch_name wreq) (reqPath wreq) =
          some (jsonDumps (descriptorJson wreq)))) ∧
    (lookupEntry wstEmpty (branch_name wreq) (reqPath wreq) = none ∧
      (∃ r1 st1, create_update_pr wstEmpty noFaults wreq = CUPResult.ok r1 st1 ∧
        fileContent st1 (branch_name wreq) (reqPath wreq) =
          some (jsonDumps (descriptorJson wreq)))) ∧
    ((500 : Nat) ≠ 404 ∧
      create_update_pr wstEmpty { readFault := some 500, createFault := none } wreq =
        CUPResult.exited 1 (branch_step wstEmpty (branch_name wreq))) ∧
    (lookupEntry wstEmpty (branch_name wreq) (reqPath wreq) = none ∧
      create_update_pr wstEmpty { readFault := none, createFault := some 502 } wreq =
        CUPResult.exited 1 (branch_step wstEmpty (branch_name wreq))) :=
  ⟨⟨by decide, (C4_descriptor_update_or_create wstFile wreq 5 "old").1 (by decide)⟩,
   ⟨by decide, (C4_descriptor_update_or_create wstEmpty wreq 0 "").2.1 (by decide)⟩,
   ⟨by decide, (C4_descriptor_update_or_create wstEmpty wreq 0 "").2.2.1 500 (by decide)⟩,
   ⟨by decide, (C4_descriptor_update_or_create wstEmpty wreq 0 "").2.2.2 502 (by decide)⟩⟩

/-- Witness for C10 on a state whose descriptor path is a directory. -/
theorem C10_dir_read_skips_write_witness :
    lookupEntry wstDir (branch_name wreq) (reqPath wreq) = some Entry.dir ∧
    (create_update_pr wstDir noFaults wreq =
      CUPResult.ok
        (pr_step (branch_step wstDir (branch_name wreq)) (branch_name wreq) wreq).1
        (pr_step (branch_step wstDir (branch_name wreq)) (branch_name wreq) wreq).2 ∧
    ((pr_step (branch_step wstDir (branch_name wreq)) (branch_name wreq) wreq).2).contents =
      wstDir.contents) :=
  ⟨by decide, C10_dir_read_skips_write wstDir wreq (by decide)⟩

end GithubProject
